import Mathlib

/-!
Shallow embedding of the scoring core of the SEO audit tool (src/app.py).

Conventions of the embedding:
* Python floats are modelled as rationals (all constants in the source are
  decimal literals, so every comparison and sum appearing in the scoring
  tables is exact decimal arithmetic).
* The parsed HTML document (BeautifulSoup object) is modelled by the `Soup`
  structure, holding exactly the observations the scoring core queries from
  it (title text, meta description content, heading texts, image alt
  attributes, extracted JSON-LD @type strings, canonical href, viewport
  content, body inline style, and the boolean/counting heuristics that are
  computed by DOM queries).
* Network effects are modelled explicitly: an HTTP GET outcome is an
  `HttpResult`; per-resource probe results (image byte sizes, broken link
  counts, stylesheet contents) enter as observation fields.
* Pure string processing done with the `re` module in the source
  (tokenising, word counting, substring search, occurrence counting) is
  implemented directly over `List Char`.
-/

/-- Lowercased character list of a string, modelling Python str.lower()
(ASCII case folding suffices for every constant the source compares with). -/
def lowerL (s : String) : List Char := s.toList.map Char.toLower

/-- Python substring test `pat in l` on character lists. -/
def containsL (pat l : List Char) : Bool :=
  l.tails.any (fun t => pat.isPrefixOf t)

/-- Maximal runs of characters satisfying p, dropping separators: the list of
matches of the regex `p+` over the input.  Second argument is the reversed
run currently being accumulated. -/
def runsByAux (p : Char → Bool) : List Char → List Char → List (List Char)
  | [], acc => if acc.isEmpty then [] else [acc.reverse]
  | c :: cs, acc =>
    if p c then runsByAux p cs (c :: acc)
    else if acc.isEmpty then runsByAux p cs []
    else acc.reverse :: runsByAux p cs []

def runsBy (p : Char → Bool) (l : List Char) : List (List Char) :=
  runsByAux p l []

/-- Python regex `\w` (word character), ASCII fragment. -/
def isWordChar (c : Char) : Bool := c.isAlphanum || c == '_'

/-- app.py count_words: `len(re.findall(r"\b\w+\b", text))`, i.e. the number
of maximal word-character runs. -/
def count_words (text : String) : ℕ := (runsBy isWordChar text.toList).length

/-- Python round() on a rational: round half to even.  Models round(x) and,
after scaling, round(x, 2). -/
def pyRound (q : ℚ) : ℤ :=
  let f : ℤ := Rat.floor q
  let frac : ℚ := q - (f : ℚ)
  if frac < 1/2 then f
  else if 1/2 < frac then f + 1
  else if f % 2 = 0 then f else f + 1

/-- Python round(x, 2). -/
def round2 (q : ℚ) : ℚ := (pyRound (q * 100) : ℚ) / 100

/-- app.py pct (lines 164-167): percentage with a zero-denominator guard. -/
def pct (numerator denominator : ℕ) : ℚ :=
  if denominator ≤ 0 then 0
  else round2 (100 * (numerator : ℚ) / (denominator : ℚ))

/-- Character class `[a-z0-9]` used by app.py tokens (line 153-154). -/
def isTokChar (c : Char) : Bool :=
  ('a' ≤ c && c ≤ 'z') || ('0' ≤ c && c ≤ '9')

/-- app.py tokens: `re.findall(r"[a-z0-9]+", s.lower())` (the per-token
second lowering in the source is a no-op on these matches). -/
def tokens (s : String) : List String :=
  (runsBy isTokChar (lowerL s)).map (fun l => String.mk l)

/-- app.py url_slug_keywords (lines 157-161): `len(set(slug) & set(kw))`,
the number of DISTINCT tokens shared by the URL path slug and the primary
keyword.  The `urlparse(url).path` extraction is done by the caller; this
function receives the path. -/
def url_slug_keywords (path primary_kw : String) : ℕ :=
  ((tokens path).dedup.filter (fun t => (tokens primary_kw).contains t)).length

/-- Vowel groups (regex `[aeiouy]+`) as used by the syllable estimate. -/
def syllablesOf (w : List Char) : ℕ :=
  max 1 (runsBy (fun c => ['a', 'e', 'i', 'o', 'u', 'y'].contains c) (w.map Char.toLower)).length

/-- app.py flesch_reading_ease (lines 87-102).  Sentences are the segments of
`re.split(r"[.!?]+", text)` that contain a non-whitespace character (empty
or all-whitespace segments are filtered out, so only the surviving maximal
runs matter). -/
def flesch_reading_ease (text : String) : ℚ :=
  let sentences := (runsBy (fun c => !(c == '.' || c == '!' || c == '?')) text.toList).filter
      (fun s => s.any (fun c => !c.isWhitespace))
  let words := runsBy isWordChar text.toList
  if words = [] ∨ sentences = [] then 0
  else
    let total_syll : ℕ := (words.map syllablesOf).sum
    let asl : ℚ := (words.length : ℚ) / ((max 1 sentences.length : ℕ) : ℚ)
    let asw : ℚ := (total_syll : ℚ) / ((max 1 words.length : ℕ) : ℚ)
    round2 (206835/1000 - 1015/1000 * asl - 846/10 * asw)

/-- Non-overlapping, left-to-right count of occurrences of pat, the length of
`re.findall(re.escape(pat), l)`.  Structural fuel (initialised to the text
length, which the scan never exceeds) keeps the definition kernel-reducible;
callers always pass a non-empty pattern. -/
def countOccsAux (pat : List Char) : ℕ → List Char → ℕ
  | 0, _ => 0
  | _ + 1, [] => 0
  | fuel + 1, c :: cs =>
    if pat.isPrefixOf (c :: cs) then 1 + countOccsAux pat fuel ((c :: cs).drop pat.length)
    else countOccsAux pat fuel cs

def countOccs (pat l : List Char) : ℕ := countOccsAux pat l.length l

/-- Remove every occurrence of pat left-to-right: Python str.replace(pat, "").
Same fuel scheme as countOccsAux. -/
def removeAllAux (pat : List Char) : ℕ → List Char → List Char
  | 0, l => l
  | _ + 1, [] => []
  | fuel + 1, c :: cs =>
    if pat.isPrefixOf (c :: cs) then removeAllAux pat fuel ((c :: cs).drop pat.length)
    else c :: removeAllAux pat fuel cs

def removeAll (s pat : String) : String :=
  String.mk (removeAllAux pat.toList s.toList.length s.toList)

/-- The observations the scoring core reads from the parsed document.  HTML
parsing itself is delegated to BeautifulSoup in the source and is out of
scope; each field records the result of one family of DOM queries. -/
structure Soup where
  /-- soup.title text, when a title element exists -/
  title : Option String
  /-- content attribute of the meta description tag, when present -/
  metaDescription : Option String
  /-- texts of the h1 elements -/
  h1s : List String
  /-- texts of the h2 and h3 elements -/
  h2h3s : List String
  /-- number of h4 elements (only the h2+h3+h4 total is ever used) -/
  h4Count : ℕ
  /-- soup.find("article") succeeds -/
  hasArticle : Bool
  /-- alt attribute of each img element (none when absent) -/
  imgAlts : List (Option String)
  /-- the flattened @type strings of the JSON-LD items -/
  jsonLdTypes : List String
  /-- href of the canonical link tag, when the tag exists -/
  canonicalHref : Option String
  /-- content attribute of the viewport meta tag, when the tag exists -/
  viewportContent : Option String
  /-- inline style attribute of the body element -/
  bodyStyle : Option String
  /-- probable_ctas count (elements classed btn or button tags) -/
  ctaCount : ℕ
  /-- spacing-hint regex found in the serialised markup -/
  spacingHint : Bool
  /-- dialog/modal/popup/overlay marker found -/
  popupDetected : Bool

/-- Word-boundary test `\b` after a match ending here. -/
def wordBoundaryAfter : List Char → Bool
  | [] => true
  | c :: _ => !(isWordChar c)

/-- One anchored attempt of the regex `/(pricing|price)\b` (alternation tries
the longer branch first; a match needs a word boundary after it). -/
def pricingMatchAt (l : List Char) : Bool :=
  ("/pricing".toList.isPrefixOf l && wordBoundaryAfter (l.drop 8)) ||
  ("/price".toList.isPrefixOf l && wordBoundaryAfter (l.drop 6))

/-- `re.search(r"/(pricing|price)\b", u)` succeeds somewhere in u. -/
def pricingRegexMatch (l : List Char) : Bool := l.tails.any pricingMatchAt

/-- app.py detect_content_type (lines 105-150).  `url` is the full URL;
`path` is `urlparse(url).path` (URL parsing is delegated to the standard
library in the source); `text` is the visible text; JSON-LD types have been
flattened into soup.jsonLdTypes exactly as the loop at lines 120-127 does. -/
def detect_content_type (url path : String) (soup : Soup) (text : String) : String :=
  let u := lowerL url
  if containsL "/blog/".toList u ∨ containsL "/article".toList u then "Blog Post"
  else if containsL "/product".toList u ∨ containsL "/shop/".toList u then "Product Page"
  else if containsL "/services".toList u ∨ containsL "/service".toList u ∨
      containsL "solutions".toList ((text.toList.take 600).map Char.toLower) then "Service Page"
  else if containsL "/faq".toList u then "FAQ Page"
  else if pricingRegexMatch u then "Landing Page"
  else if soup.jsonLdTypes.contains "Product" then "Product Page"
  else if soup.jsonLdTypes.contains "FAQPage" then "FAQ Page"
  else if soup.jsonLdTypes.contains "Article" ∨ soup.jsonLdTypes.contains "BlogPosting" ∨
      soup.hasArticle then
    if 2000 ≤ count_words text ∧ 6 ≤ soup.h2h3s.length then "Pillar Page" else "Blog Post"
  else if 2200 ≤ count_words text ∧ 6 ≤ soup.h2h3s.length then "Pillar Page"
  else if soup.h1s.length = 1 ∧ containsL "get a quote".toList (lowerL text) then "Service Page"
  else if ["", "/", "/home", "/index.html"].contains path then "Home Page"
  else "Landing Page"

/-! ## Content pillar (app.py lines 172-340) -/

/-- ideal_wc table (lines 185-194). -/
def ideal_wc (ct : String) : Option (ℕ × ℕ) :=
  match ct with
  | "Blog Post" => some (1200, 2000)
  | "Pillar Page" => some (2000, 4000)
  | "Product Page" => some (500, 800)
  | "Service Page" => some (700, 1200)
  | "FAQ Page" => some (300, 700)
  | "Landing Page" => some (400, 900)
  | "Home Page" => some (400, 1200)
  | "News Article" => some (600, 1000)
  | _ => none

/-- Word-count sub-score, max 3 (lines 196-207). -/
def wordCountScore (ct : String) (wc : ℕ) : ℚ :=
  let lh := (ideal_wc ct).getD (600, 1500)
  if lh.1 ≤ wc ∧ wc ≤ lh.2 then 3
  else if (lh.1 : ℚ) * (85/100) ≤ (wc : ℚ) ∧ (wc : ℚ) ≤ (lh.2 : ℚ) * (115/100) then 2
  else 0

/-- density_ranges table (lines 218-227), in percent. -/
def density_ranges (ct : String) : Option (ℚ × ℚ) :=
  match ct with
  | "Blog Post" => some (1, 5/2)
  | "Pillar Page" => some (8/10, 3/2)
  | "Product Page" => some (3/2, 3)
  | "Service Page" => some (1, 2)
  | "Landing Page" => some (1/2, 6/5)
  | "FAQ Page" => some (8/10, 3/2)
  | "Home Page" => some (8/10, 9/5)
  | "News Article" => some (8/10, 9/5)
  | _ => none

/-- Keyword density in percent (lines 212-215): occurrences of the stripped
primary keyword (case-insensitive, literal) per word, times 100; 0.0 when the
keyword is empty or the text has no words. -/
def keywordDensityOf (text kw : String) : ℚ :=
  let wc := count_words text
  if kw ≠ "" ∧ 0 < wc then (countOccs (lowerL kw) (lowerL text) : ℚ) / (wc : ℚ) * 100
  else 0

/-- Keyword-density sub-score, max 3 (lines 228-238). -/
def keywordDensityScore (ct : String) (dens : ℚ) : ℚ :=
  let lh := (density_ranges ct).getD (8/10, 2)
  if lh.1 ≤ dens ∧ dens ≤ lh.2 then 3
  else if lh.1 - 2/10 ≤ dens ∧ dens ≤ lh.2 + 2/10 then 2
  else 0

/-- First 100 whitespace-separated words of the text, joined by single spaces
and lowercased: `" ".join(text.split()[:100]).lower()` (line 244). -/
def intro100 (text : String) : List Char :=
  lowerL (String.intercalate " "
    (((runsBy (fun c => !c.isWhitespace) text.toList).take 100).map (fun l => String.mk l)))

/-- Keyword-placement sub-score, max 5 (lines 240-262): one point each for
the keyword appearing in the title, the meta description, the first 100
words, any h1, and any h2/h3; zero when the stripped keyword is empty.  The
absent-title and absent-meta cases fall back to the empty string exactly as
the source conditionals do. -/
def keywordPlacementScore (soup : Soup) (text kw : String) : ℚ :=
  if kw = "" then 0
  else
    let kwl := lowerL kw
    (if containsL kwl (lowerL (soup.title.getD "")) then (1 : ℚ) else 0)
    + (if containsL kwl (lowerL (soup.metaDescription.getD "")) then 1 else 0)
    + (if containsL kwl (intro100 text) then 1 else 0)
    + (if soup.h1s.any (fun h => containsL kwl (lowerL h.trim)) then 1 else 0)
    + (if soup.h2h3s.any (fun h => containsL kwl (lowerL h.trim)) then 1 else 0)

/-- lsi_ratio table (lines 273-282): words-per-related-term target. -/
def lsi_ratio_table (ct : String) : Option ℕ :=
  match ct with
  | "Blog Post" => some 400
  | "Pillar Page" => some 300
  | "Product Page" => some 400
  | "Service Page" => some 400
  | "FAQ Page" => some 350
  | "Landing Page" => some 500
  | "Home Page" => some 450
  | "News Article" => some 400
  | _ => none

/-- LSI sub-score, max 3 (lines 266-301): with a non-empty stripped term
list, target = max(1, round(wc / per)), coverage = hits/target; no terms
means 0 without touching the available maximum. -/
def lsiScore (ct text : String) (lsi_terms : List String) : ℚ :=
  let terms := (lsi_terms.map String.trim).filter (fun t => t ≠ "")
  if terms = [] then 0
  else
    let wc := count_words text
    let hits := (terms.filter (fun t => containsL (lowerL t) (lowerL text))).length
    let per := (lsi_ratio_table ct).getD 400
    let ideal_terms : ℤ := max 1 (pyRound ((wc : ℚ) / (per : ℚ)))
    let coverage : ℚ := if 0 < ideal_terms then (hits : ℚ) / (ideal_terms : ℚ) else 0
    if 1 ≤ coverage then 3 else if 7/10 ≤ coverage then 2 else 0

/-- Readability thresholds table (lines 307-310). -/
def readability_thresholds (ct : String) : Option ℚ :=
  match ct with
  | "Blog Post" => some 60
  | "Pillar Page" => some 55
  | "Product Page" => some 65
  | "Service Page" => some 60
  | "FAQ Page" => some 70
  | "Landing Page" => some 65
  | "Home Page" => some 60
  | "News Article" => some 60
  | _ => none

/-- Readability sub-score, max 3 (lines 303-321). -/
def readabilityScore (ct : String) (fre : ℚ) : ℚ :=
  let th := (readability_thresholds ct).getD 60
  if th ≤ fre then 3 else if th - 10 ≤ fre then 2 else 0

/-- Originality sub-score, max 3 (lines 323-338): contributes nothing when no
percentage was supplied. -/
def originalityScore : Option ℚ → ℚ
  | none => 0
  | some p => if 95 ≤ p then 3 else if 85 ≤ p then 2 else 0

/-- Net contribution of the originality block to the available maximum: the
source adds 3 and immediately subtracts 3 again when no percentage was
supplied (lines 324-327). -/
def originalityAvailable : Option ℚ → ℚ
  | none => 0
  | some _ => 3

/-- Sum of the five always-counted content sub-scores (word count, density,
placement, LSI, readability); kw is already stripped. -/
def contentBaseScore (ct text kw : String) (lsi_terms : List String) (soup : Soup) : ℚ :=
  wordCountScore ct (count_words text)
  + keywordDensityScore ct (keywordDensityOf text kw)
  + keywordPlacementScore soup text kw
  + lsiScore ct text lsi_terms
  + readabilityScore ct (flesch_reading_ease text)

/-- app.py score_content_pillar (lines 172-340), returning (score, available).
The details/suggestions outputs only mirror the scored branches and carry no
extra state.  soup is the module-global parsed document used for keyword
placement. -/
def score_content_pillar (content_type text primary_kw : String) (lsi_terms : List String)
    (originality_pct : Option ℚ) (soup : Soup) : ℚ × ℚ :=
  let kw := primary_kw.trim
  (contentBaseScore content_type text kw lsi_terms soup + originalityScore originality_pct,
    3 + 3 + 5 + 3 + 3 + originalityAvailable originality_pct)

/-! ## HTML tag pillar (app.py lines 343-462) -/

/-- Title-length sub-score, max 1 (lines 349-362). -/
def titleScore (title : Option String) : ℚ :=
  let tl := ((title.getD "").trim).length
  if tl ≤ 60 ∧ 10 ≤ tl then 1
  else if (61 ≤ tl ∧ tl ≤ 65) ∨ (8 ≤ tl ∧ tl < 10) then 1/2
  else 0

/-- Meta-description-length sub-score, max 1 (lines 364-377). -/
def metaDescriptionScore (md : Option String) : ℚ :=
  let l := ((md.getD "").trim).length
  if 150 ≤ l ∧ l ≤ 160 then 1
  else if 140 ≤ l ∧ l ≤ 170 then 1/2
  else 0

/-- H1-count sub-score, max 2 (lines 379-391). -/
def h1Score (n : ℕ) : ℚ :=
  if n = 1 then 2 else if 1 < n then 1 else 0

/-- need_map table (lines 394-397): required number of h2/h3/h4 headings. -/
def need_map (ct : String) : Option ℕ :=
  match ct with
  | "Blog Post" => some 2
  | "Pillar Page" => some 5
  | "Product Page" => some 1
  | "Service Page" => some 2
  | "FAQ Page" => some 3
  | "Landing Page" => some 1
  | "Home Page" => some 2
  | "News Article" => some 2
  | _ => none

/-- Subheading sub-score, max 2 (lines 393-410). -/
def h2plusScore (ct : String) (h2plus : ℕ) : ℚ :=
  let needed := (need_map ct).getD 2
  if needed ≤ h2plus then 2
  else if h2plus = max 0 (needed - 1) then 1
  else 0

/-- Images whose alt attribute is present and non-blank (line 414). -/
def altCount (alts : List (Option String)) : ℕ :=
  (alts.filter (fun a => (a.getD "").trim ≠ "")).length

/-- Alt coverage percent (line 415): pages with no images count as 100%. -/
def altCoverage (alts : List (Option String)) : ℚ :=
  if alts = [] then 100 else pct (altCount alts) alts.length

/-- Alt-coverage sub-score, max 2 (lines 412-426). -/
def altScore (alts : List (Option String)) : ℚ :=
  let c := altCoverage alts
  if 90 ≤ c then 2 else if 70 ≤ c then 1 else 0

/-- target_schema table (lines 431-440), default WebPage. -/
def target_schema (ct : String) : List String :=
  match ct with
  | "Blog Post" => ["Article", "BlogPosting"]
  | "Pillar Page" => ["Article", "WebPage"]
  | "Product Page" => ["Product"]
  | "Service Page" => ["Service", "LocalBusiness", "Organization"]
  | "FAQ Page" => ["FAQPage"]
  | "Landing Page" => ["WebPage"]
  | "Home Page" => ["WebPage", "Organization"]
  | "News Article" => ["NewsArticle", "Article"]
  | _ => ["WebPage"]

/-- Schema sub-score, max 2 (lines 428-460). -/
def schemaScore (ct : String) (found_types : List String) : ℚ :=
  if found_types.any (fun t => (target_schema ct).contains t) then 2
  else if found_types ≠ [] then 1
  else 0

/-- app.py score_html_pillar (lines 343-462): fixed available 10. -/
def score_html_pillar (soup : Soup) (content_type : String) : ℚ × ℚ :=
  (titleScore soup.title + metaDescriptionScore soup.metaDescription
    + h1Score soup.h1s.length + h2plusScore content_type (soup.h2h3s.length + soup.h4Count)
    + altScore soup.imgAlts + schemaScore content_type soup.jsonLdTypes,
    10)

/-! ## URL and link pillar (app.py lines 465-564) -/

/-- URL-length sub-score, max 2 (lines 471-484): character count after
stripping the scheme prefixes. -/
def urlLengthScore (url : String) : ℚ :=
  let url_chars := (removeAll (removeAll url "https://") "http://").length
  if 30 ≤ url_chars ∧ url_chars ≤ 65 then 2
  else if (25 ≤ url_chars ∧ url_chars < 30) ∨ (66 ≤ url_chars ∧ url_chars ≤ 75) then 1
  else 0

/-- Keyword-in-URL sub-score, max 1 (lines 486-494): full point exactly for
1 or 2 distinct token overlaps; the count is forced to 0 when the raw
primary keyword is empty. -/
def keywordsInUrlScore (path primary_kw : String) : ℚ :=
  let k := if primary_kw ≠ "" then url_slug_keywords path primary_kw else 0
  if 1 ≤ k ∧ k ≤ 2 then 1 else 0

/-- Canonical-tag sub-score, max 1 (lines 496-504): tag present with a
non-empty href. -/
def canonicalScore (href : Option String) : ℚ :=
  match href with
  | some h => if h ≠ "" then 1 else 0
  | none => 0

/-- Internal-links sub-score, max 2 (lines 523-532). -/
def internalLinksScore (n : ℕ) : ℚ :=
  if 2 ≤ n ∧ n ≤ 15 then 2
  else if n = 1 ∨ n = 16 ∨ n = 17 then 1
  else 0

/-- External-links sub-score, max 2 (lines 534-542); the final else branch of
the source is unreachable and scores 0. -/
def externalLinksScore (n : ℕ) : ℚ :=
  if 1 ≤ n ∧ n ≤ 5 then 2
  else if n = 0 ∨ 5 < n then (if 0 < n then 1 else 0)
  else 0

/-- Broken-links sub-score, max 2 (lines 544-562). -/
def brokenLinksScore (n : ℕ) : ℚ :=
  if n = 0 then 2 else if n = 1 then 1 else 0

/-- Link-count observations of the anchor scan (lines 506-552): resolved
internal/external anchor counts and the broken count of the 15-anchor HEAD
probe sample. -/
structure LinkObs where
  internals : ℕ
  externals : ℕ
  broken : ℕ

/-- app.py score_url_links_pillar (lines 465-564): fixed available 10.
path is `urlparse(url).path` for the slug-keyword check. -/
def score_url_links_pillar (url path : String) (soup : Soup) (primary_kw : String)
    (links : LinkObs) : ℚ × ℚ :=
  (urlLengthScore url + keywordsInUrlScore path primary_kw + canonicalScore soup.canonicalHref
    + internalLinksScore links.internals + externalLinksScore links.externals
    + brokenLinksScore links.broken,
    10)

/-! ## Performance pillar (app.py lines 567-792) -/

/-- Metrics extracted from the PageSpeed Insights response (lines 567-598):
LCP already converted to seconds, CLS unitless, TBT and interactive in ms. -/
structure PsiMetrics where
  lcp : Option ℚ
  cls : Option ℚ
  tbt_ms : Option ℚ
  interactive_ms : Option ℚ

/-- Static observations driving the heuristic fallback mode (lines 680-791):
sampled image kilobytes, inline script bytes, images without dimensions,
external JS+CSS count, large-image and modern-format sample counts. -/
structure PerfObs where
  imgSampleKb : ℚ
  inlineScriptBytes : ℕ
  imgsNoDim : ℕ
  extCount : ℕ
  largeImgs : ℕ
  webpAvif : ℕ

/-- Measured LCP sub-score, max 6 (lines 621-636). -/
def lcpScore (lcp : Option ℚ) : ℚ :=
  match lcp with
  | some l => if l ≤ 5/2 then 6 else if l ≤ 3 then 4 else 0
  | none => 0

/-- Measured FID-proxy sub-score, max 5 (lines 638-648). -/
def fidScore (fid_est : Option ℚ) : ℚ :=
  match fid_est with
  | some f => if f ≤ 100 then 5 else if f ≤ 200 then 3 else 0
  | none => 0

/-- Measured CLS sub-score, max 5 (lines 650-660). -/
def clsScore (cls : Option ℚ) : ℚ :=
  match cls with
  | some c => if c ≤ 1/10 then 5 else if c ≤ 1/4 then 3 else 0
  | none => 0

/-- Measured load-time sub-score from interactive ms, max 6 (lines 662-676);
scored only when the metric exists. -/
def loadTimeScore (interactive : Option ℚ) : ℚ :=
  match interactive with
  | some i =>
    let sec := i / 1000
    if sec ≤ 3 then 6 else if sec ≤ 4 then 3 else 0
  | none => 0

/-- Available-maximum reduction when interactive ms is missing (line 678). -/
def loadTimeExcluded (interactive : Option ℚ) : ℚ :=
  match interactive with
  | some _ => 0
  | none => 6

/-- Heuristic LCP proxy, max 6 but capped at 4 (lines 701-711). -/
def lcpHeuristicScore (kb : ℚ) : ℚ :=
  if kb ≤ 300 then 4 else if kb ≤ 600 then 2 else 0

/-- Heuristic FID proxy from inline script bytes, max 5 but capped at 4
(lines 713-725). -/
def fidHeuristicScore (inline_bytes : ℕ) : ℚ :=
  if inline_bytes ≤ 20000 then 4 else if inline_bytes ≤ 50000 then 2 else 0

/-- Heuristic CLS proxy from dimensionless images, max 5 but capped at 4
(lines 727-738). -/
def clsHeuristicScore (imgs_no_dim : ℕ) : ℚ :=
  if imgs_no_dim = 0 then 4 else if imgs_no_dim ≤ 2 then 2 else 0

/-- Heuristic load-time proxy from external resource count, max 6 but capped
at 4 (lines 740-755). -/
def loadHeuristicScore (ext_count : ℕ) : ℚ :=
  if ext_count ≤ 10 then 4 else if ext_count ≤ 18 then 2 else 0

/-- Heuristic media-optimisation score, additive 0-8 (lines 757-790). -/
def mediaHeuristicScore (large_imgs webp_avif : ℕ) : ℚ :=
  let m1 : ℚ := if large_imgs = 0 then 4 else if large_imgs ≤ 2 then 2 else 0
  let m2 : ℚ := if 2 ≤ webp_avif then 4 else if webp_avif = 1 then 2 else 0
  min (m1 + m2) 8

/-- app.py score_performance_pillar (lines 601-792).  psi is the parsed PSI
result when a key was supplied and the API call succeeded, none otherwise
(line 608); the measured mode scores LCP, an FID estimate derived from TBT,
CLS, and load time, excluding the load-time maximum when interactive ms is
missing; the heuristic mode scores four proxies plus media optimisation. -/
def score_performance_pillar (psi : Option PsiMetrics) (obs : PerfObs) : ℚ × ℚ :=
  match psi with
  | some p =>
    let fid_est := p.tbt_ms.map (fun t => max 0 (min 300 (t / 2)))
    (lcpScore p.lcp + fidScore fid_est + clsScore p.cls + loadTimeScore p.interactive_ms,
      30 - loadTimeExcluded p.interactive_ms)
  | none =>
    (lcpHeuristicScore obs.imgSampleKb + fidHeuristicScore obs.inlineScriptBytes
      + clsHeuristicScore obs.imgsNoDim + loadHeuristicScore obs.extCount
      + mediaHeuristicScore obs.largeImgs obs.webpAvif,
      30)

/-! ## Mobile pillar (app.py lines 795-890) -/

/-- Viewport sub-score, max 4 (lines 801-814). -/
def viewportScore (vp : Option String) : ℚ :=
  match vp with
  | none => 0
  | some content =>
    let c := lowerL content
    if containsL "width=device-width".toList c ∧ containsL "initial-scale=1".toList c then 4
    else if containsL "width=device-width".toList c ∨ containsL "initial-scale=1".toList c then 2
    else 0

/-- Responsive-CSS sub-score, max 6 (lines 816-834): found @media rule in a
fetched stylesheet. -/
def responsiveScore (media_found : Bool) : ℚ :=
  if media_found then 6 else 0

/-- Tap-target sub-score (lines 836-845): 3 points for at least 3 CTA
elements; the else branch displays 1/5 but adds nothing to the score. -/
def tapTargetScore (probable_ctas : ℕ) : ℚ :=
  if 3 ≤ probable_ctas then 3 else 0

/-- Tap-spacing sub-score (lines 847-856): 3 points when the spacing hint is
detected; the else branch displays 1/4 but adds nothing. -/
def tapSpacingScore (hint : Bool) : ℚ :=
  if hint then 3 else 0

/-- Base font-size test of the body inline style (lines 859-861):
"font-size:16px" as a substring after removing spaces and lowercasing. -/
def base16Of (body_style : Option String) : Bool :=
  containsL "font-size:16px".toList
    (lowerL (String.mk ((body_style.getD "").toList.filter (fun c => c ≠ ' '))))

/-- Font-size sub-score (lines 858-877): 4 points when 16px is detected
inline or in a fetched stylesheet; the else branch displays 2/5 but adds
nothing. -/
def fontSizeScore (base16 css16 : Bool) : ℚ :=
  if base16 ∨ css16 then 4 else 0

/-- Popup sub-score, max 6 (lines 879-888). -/
def popupScore (has_popup : Bool) : ℚ :=
  if has_popup then 3 else 6

/-- app.py score_mobile_pillar (lines 795-890): fixed available 30.
media_found and css16 record the outcomes of the stylesheet fetches. -/
def score_mobile_pillar (soup : Soup) (media_found css16 : Bool) : ℚ × ℚ :=
  (viewportScore soup.viewportContent + responsiveScore media_found
    + tapTargetScore soup.ctaCount + tapSpacingScore soup.spacingHint
    + fontSizeScore (base16Of soup.bodyStyle) css16 + popupScore soup.popupDetected,
    30)

/-! ## Fetching and the audit driver (app.py lines 13-44 and 895-945) -/

/-- Outcome of one HTTP GET: a status code with a body, or a network error. -/
inductive HttpResult where
  | response (status : ℕ) (body : String)
  | netError

/-- app.py line 13: the fallback scraper key ships empty. -/
def SCRAPER_API_KEY : String := ""

/-- The ScraperAPI fallback block of fetch_html (lines 35-44): attempted only
when a fallback key is configured. -/
def fallbackFetch (fallback : HttpResult) : Option String :=
  if SCRAPER_API_KEY ≠ "" then
    match fallback with
    | HttpResult.response s body => if s = 200 then some body else none
    | HttpResult.netError => none
  else none

/-- app.py fetch_html (lines 26-44): return the body on HTTP 200, otherwise
fall through to the fallback block (non-200 and network error alike). -/
def fetch_html (primary fallback : HttpResult) : Option String :=
  match primary with
  | HttpResult.response s body =>
    if s = 200 then some body else fallbackFetch fallback
  | HttpResult.netError => fallbackFetch fallback

/-- Per-pillar normalisation of the aggregator (lines 936-941): zero when
available is non-positive, else raw/available times the fixed weight. -/
def normContribution (s avail weight : ℚ) : ℚ :=
  if avail ≤ 0 then 0 else s / avail * weight

/-- The fixed pillar weights of run_audit (lines 924-930): content 20,
HTML 10, URL/links 10, performance 30, mobile 30. -/
def pillarWeights : List ℚ := [20, 10, 10, 30, 30]

/-- total_weighted of the aggregation loop (lines 932-943). -/
def total_weighted (pairs : List (ℚ × ℚ)) : ℚ :=
  ((pairs.zip pillarWeights).map (fun pw => normContribution pw.1.1 pw.1.2 pw.2)).sum

/-- total_possible of the aggregation loop (lines 932-943): the sum of the
fixed weights of the pillars iterated, independent of the pairs. -/
def total_possible (pairs : List (ℚ × ℚ)) : ℚ :=
  ((pairs.zip pillarWeights).map (fun pw => pw.2)).sum

/-- Everything one audit run consumes: the target URL and its parsed path,
the two possible fetch outcomes, the document observations, the visible
text, and the user inputs.  originality_pct is the parsed optional float
(none for a blank or unparseable field, lines 910-915); lsi_terms is the
comma-split related-terms field before stripping (line 909 strips). -/
structure AuditInput where
  url : String
  path : String
  primary : HttpResult
  fallback : HttpResult
  soup : Soup
  text : String
  primary_kw : String
  lsi_terms : List String
  originality_pct : Option ℚ
  psi : Option PsiMetrics
  perfObs : PerfObs
  links : LinkObs
  mediaFound : Bool
  css16 : Bool

/-- app.py run_audit (lines 895-945).  Returns none exactly when the fetch
produced no usable HTML (the source returns the tuple (None, None), and an
empty body is falsy too); otherwise classifies, scores the five pillars, and
aggregates.  The result carries the content type, the (raw, available,
normalised) triple per pillar, the weighted total, and the total possible. -/
def run_audit (inp : AuditInput) : Option (String × List (ℚ × ℚ × ℚ) × ℚ × ℚ) :=
  match fetch_html inp.primary inp.fallback with
  | none => none
  | some html =>
    if html = "" then none
    else
      let ctype := detect_content_type inp.url inp.path inp.soup inp.text
      let lsi_terms := (inp.lsi_terms.map String.trim).filter (fun t => t ≠ "")
      let p1 := score_content_pillar ctype inp.text inp.primary_kw lsi_terms
        inp.originality_pct inp.soup
      let p2 := score_html_pillar inp.soup ctype
      let p3 := score_url_links_pillar inp.url inp.path inp.soup inp.primary_kw inp.links
      let p4 := score_performance_pillar inp.psi inp.perfObs
      let p5 := score_mobile_pillar inp.soup inp.mediaFound inp.css16
      let pairs := [(p1.1, p1.2), (p2.1, p2.2), (p3.1, p3.2), (p4.1, p4.2), (p5.1, p5.2)]
      some (ctype,
        (pairs.zip pillarWeights).map (fun pw => (pw.1.1, pw.1.2, normContribution pw.1.1 pw.1.2 pw.2)),
        total_weighted pairs,
        total_possible pairs)

/-! ## Concrete documents used by witnesses and counterexamples -/

/-- A minimal parsed document: no metadata, no headings, no images. -/
def soupEmpty : Soup :=
  { title := none
    metaDescription := none
    h1s := []
    h2h3s := []
    h4Count := 0
    hasArticle := false
    imgAlts := []
    jsonLdTypes := []
    canonicalHref := none
    viewportContent := none
    bodyStyle := none
    ctaCount := 0
    spacingHint := false
    popupDetected := false }

/-- A document whose JSON-LD declares @type Product. -/
def soupProductLd : Soup :=
  { soupEmpty with jsonLdTypes := ["Product"] }

/-- Perf observations with every heuristic quantity zero. -/
def perfObsZero : PerfObs :=
  { imgSampleKb := 0
    inlineScriptBytes := 0
    imgsNoDim := 0
    extCount := 0
    largeImgs := 0
    webpAvif := 0 }

/-- Link observations with no anchors at all. -/
def linksZero : LinkObs :=
  { internals := 0, externals := 0, broken := 0 }

/-- An audit request whose primary fetch came back HTTP 500. -/
def inpFail : AuditInput :=
  { url := "https://example.com/page"
    path := "/page"
    primary := HttpResult.response 500 "Internal Server Error"
    fallback := HttpResult.netError
    soup := soupEmpty
    text := ""
    primary_kw := ""
    lsi_terms := []
    originality_pct := none
    psi := none
    perfObs := perfObsZero
    links := linksZero
    mediaFound := false
    css16 := false }

/-! ## Generic facts about substring search and normalisation -/

theorem containsL_iff {pat l : List Char} : containsL pat l = true ↔ pat <:+: l := by
  simp only [containsL, List.any_eq_true, List.mem_tails, List.isPrefixOf_iff_prefix,
    List.infix_iff_prefix_suffix]
  constructor
  · rintro ⟨t, ht, hp⟩; exact ⟨t, hp, ht⟩
  · rintro ⟨t, hp, ht⟩; exact ⟨t, ht, hp⟩

theorem normContribution_nonneg {s a w : ℚ} (hs : 0 ≤ s) (hw : 0 ≤ w) :
    0 ≤ normContribution s a w := by
  unfold normContribution
  split
  · exact le_refl 0
  · rename_i ha
    have ha0 : 0 < a := lt_of_not_le ha
    exact mul_nonneg (div_nonneg hs ha0.le) hw

theorem normContribution_le {s a w : ℚ} (_hs : 0 ≤ s) (hsa : s ≤ a) (hw : 0 ≤ w) :
    normContribution s a w ≤ w := by
  unfold normContribution
  split
  · exact hw
  · rename_i ha
    have ha0 : 0 < a := lt_of_not_le ha
    have h1 : s / a ≤ 1 := (div_le_one ha0).mpr hsa
    exact mul_le_of_le_one_left hw h1

theorem normContribution_lt {s a w : ℚ} (hsa : s < a) (hw : 0 < w) :
    normContribution s a w < w := by
  unfold normContribution
  split
  · exact hw
  · rename_i ha
    have ha0 : 0 < a := lt_of_not_le ha
    have h1 : s / a < 1 := (div_lt_one ha0).mpr hsa
    exact mul_lt_of_lt_one_left hw h1

theorem total_weighted_eq (p1 p2 p3 p4 p5 : ℚ × ℚ) :
    total_weighted [p1, p2, p3, p4, p5]
      = normContribution p1.1 p1.2 20 + normContribution p2.1 p2.2 10
        + normContribution p3.1 p3.2 10 + normContribution p4.1 p4.2 30
        + normContribution p5.1 p5.2 30 := by
  simp [total_weighted, pillarWeights]
  ring

theorem total_possible_eq (p1 p2 p3 p4 p5 : ℚ × ℚ) :
    total_possible [p1, p2, p3, p4, p5] = 100 := by
  simp [total_possible, pillarWeights]
  norm_num

/-! ## Range facts for the content sub-scores -/

theorem wordCountScore_bounds (ct : String) (wc : ℕ) :
    0 ≤ wordCountScore ct wc ∧ wordCountScore ct wc ≤ 3 := by
  simp only [wordCountScore]
  repeat' split
  all_goals norm_num

theorem keywordDensityScore_bounds (ct : String) (dens : ℚ) :
    0 ≤ keywordDensityScore ct dens ∧ keywordDensityScore ct dens ≤ 3 := by
  simp only [keywordDensityScore]
  repeat' split
  all_goals norm_num

theorem keywordPlacementScore_bounds (soup : Soup) (text kw : String) :
    0 ≤ keywordPlacementScore soup text kw ∧ keywordPlacementScore soup text kw ≤ 5 := by
  simp only [keywordPlacementScore]
  repeat' split
  all_goals norm_num

theorem lsiScore_bounds (ct text : String) (lsi_terms : List String) :
    0 ≤ lsiScore ct text lsi_terms ∧ lsiScore ct text lsi_terms ≤ 3 := by
  simp only [lsiScore]
  repeat' split
  all_goals norm_num

theorem readabilityScore_bounds (ct : String) (fre : ℚ) :
    0 ≤ readabilityScore ct fre ∧ readabilityScore ct fre ≤ 3 := by
  simp only [readabilityScore]
  repeat' split
  all_goals norm_num

theorem originalityScore_bounds (o : Option ℚ) :
    0 ≤ originalityScore o ∧ originalityScore o ≤ originalityAvailable o := by
  cases o with
  | none => exact ⟨le_refl 0, le_refl 0⟩
  | some p =>
    simp only [originalityScore, originalityAvailable]
    repeat' split
    all_goals norm_num

theorem originalityAvailable_nonneg (o : Option ℚ) : 0 ≤ originalityAvailable o := by
  cases o <;> simp [originalityAvailable]

theorem contentBaseScore_bounds (ct text kw : String) (lsi_terms : List String) (soup : Soup) :
    0 ≤ contentBaseScore ct text kw lsi_terms soup
      ∧ contentBaseScore ct text kw lsi_terms soup ≤ 17 := by
  obtain ⟨a1, b1⟩ := wordCountScore_bounds ct (count_words text)
  obtain ⟨a2, b2⟩ := keywordDensityScore_bounds ct (keywordDensityOf text kw)
  obtain ⟨a3, b3⟩ := keywordPlacementScore_bounds soup text kw
  obtain ⟨a4, b4⟩ := lsiScore_bounds ct text lsi_terms
  obtain ⟨a5, b5⟩ := readabilityScore_bounds ct (flesch_reading_ease text)
  unfold contentBaseScore
  constructor <;> linarith

theorem score_content_pillar_bounds (ct text kw : String) (lsi_terms : List String)
    (o : Option ℚ) (soup : Soup) :
    0 ≤ (score_content_pillar ct text kw lsi_terms o soup).1
      ∧ (score_content_pillar ct text kw lsi_terms o soup).1
        ≤ (score_content_pillar ct text kw lsi_terms o soup).2 := by
  obtain ⟨hb0, hb17⟩ := contentBaseScore_bounds ct text kw.trim lsi_terms soup
  obtain ⟨ho0, hoa⟩ := originalityScore_bounds o
  simp only [score_content_pillar]
  constructor <;> linarith

/-! ## Range facts for the HTML sub-scores -/

theorem titleScore_bounds (t : Option String) : 0 ≤ titleScore t ∧ titleScore t ≤ 1 := by
  simp only [titleScore]
  repeat' split
  all_goals norm_num

theorem metaDescriptionScore_bounds (md : Option String) :
    0 ≤ metaDescriptionScore md ∧ metaDescriptionScore md ≤ 1 := by
  simp only [metaDescriptionScore]
  repeat' split
  all_goals norm_num

theorem h1Score_bounds (n : ℕ) : 0 ≤ h1Score n ∧ h1Score n ≤ 2 := by
  simp only [h1Score]
  repeat' split
  all_goals norm_num

theorem h2plusScore_bounds (ct : String) (n : ℕ) :
    0 ≤ h2plusScore ct n ∧ h2plusScore ct n ≤ 2 := by
  simp only [h2plusScore]
  repeat' split
  all_goals norm_num

theorem altScore_bounds (alts : List (Option String)) :
    0 ≤ altScore alts ∧ altScore alts ≤ 2 := by
  simp only [altScore]
  repeat' split
  all_goals norm_num

theorem schemaScore_bounds (ct : String) (found : List String) :
    0 ≤ schemaScore ct found ∧ schemaScore ct found ≤ 2 := by
  simp only [schemaScore]
  repeat' split
  all_goals norm_num

theorem score_html_pillar_bounds (soup : Soup) (ct : String) :
    0 ≤ (score_html_pillar soup ct).1
      ∧ (score_html_pillar soup ct).1 ≤ (score_html_pillar soup ct).2 := by
  obtain ⟨a1, b1⟩ := titleScore_bounds soup.title
  obtain ⟨a2, b2⟩ := metaDescriptionScore_bounds soup.metaDescription
  obtain ⟨a3, b3⟩ := h1Score_bounds soup.h1s.length
  obtain ⟨a4, b4⟩ := h2plusScore_bounds ct (soup.h2h3s.length + soup.h4Count)
  obtain ⟨a5, b5⟩ := altScore_bounds soup.imgAlts
  obtain ⟨a6, b6⟩ := schemaScore_bounds ct soup.jsonLdTypes
  simp only [score_html_pillar]
  constructor <;> linarith

/-! ## Range facts for the URL/link sub-scores -/

theorem urlLengthScore_bounds (url : String) :
    0 ≤ urlLengthScore url ∧ urlLengthScore url ≤ 2 := by
  simp only [urlLengthScore]
  repeat' split
  all_goals norm_num

theorem keywordsInUrlScore_bounds (path kw : String) :
    0 ≤ keywordsInUrlScore path kw ∧ keywordsInUrlScore path kw ≤ 1 := by
  simp only [keywordsInUrlScore]
  repeat' split
  all_goals norm_num

theorem canonicalScore_bounds (href : Option String) :
    0 ≤ canonicalScore href ∧ canonicalScore href ≤ 1 := by
  cases href with
  | none => simp [canonicalScore]
  | some h =>
    simp only [canonicalScore]
    repeat' split
    all_goals norm_num

theorem internalLinksScore_bounds (n : ℕ) :
    0 ≤ internalLinksScore n ∧ internalLinksScore n ≤ 2 := by
  simp only [internalLinksScore]
  repeat' split
  all_goals norm_num

theorem externalLinksScore_bounds (n : ℕ) :
    0 ≤ externalLinksScore n ∧ externalLinksScore n ≤ 2 := by
  simp only [externalLinksScore]
  repeat' split
  all_goals norm_num

theorem brokenLinksScore_bounds (n : ℕ) :
    0 ≤ brokenLinksScore n ∧ brokenLinksScore n ≤ 2 := by
  simp only [brokenLinksScore]
  repeat' split
  all_goals norm_num

theorem score_url_links_pillar_bounds (url path : String) (soup : Soup) (kw : String)
    (links : LinkObs) :
    0 ≤ (score_url_links_pillar url path soup kw links).1
      ∧ (score_url_links_pillar url path soup kw links).1
        ≤ (score_url_links_pillar url path soup kw links).2 := by
  obtain ⟨a1, b1⟩ := urlLengthScore_bounds url
  obtain ⟨a2, b2⟩ := keywordsInUrlScore_bounds path kw
  obtain ⟨a3, b3⟩ := canonicalScore_bounds soup.canonicalHref
  obtain ⟨a4, b4⟩ := internalLinksScore_bounds links.internals
  obtain ⟨a5, b5⟩ := externalLinksScore_bounds links.externals
  obtain ⟨a6, b6⟩ := brokenLinksScore_bounds links.broken
  simp only [score_url_links_pillar]
  constructor <;> linarith

/-! ## Range facts for the performance sub-scores -/

theorem lcpScore_bounds (l : Option ℚ) : 0 ≤ lcpScore l ∧ lcpScore l ≤ 6 := by
  cases l with
  | none => simp [lcpScore]
  | some v =>
    simp only [lcpScore]
    repeat' split
    all_goals norm_num

theorem fidScore_bounds (f : Option ℚ) : 0 ≤ fidScore f ∧ fidScore f ≤ 5 := by
  cases f with
  | none => simp [fidScore]
  | some v =>
    simp only [fidScore]
    repeat' split
    all_goals norm_num

theorem clsScore_bounds (c : Option ℚ) : 0 ≤ clsScore c ∧ clsScore c ≤ 5 := by
  cases c with
  | none => simp [clsScore]
  | some v =>
    simp only [clsScore]
    repeat' split
    all_goals norm_num

theorem loadTimeScore_bounds (i : Option ℚ) : 0 ≤ loadTimeScore i ∧ loadTimeScore i ≤ 6 := by
  cases i with
  | none => simp [loadTimeScore]
  | some v =>
    simp only [loadTimeScore]
    repeat' split
    all_goals norm_num

theorem lcpHeuristicScore_bounds (kb : ℚ) :
    0 ≤ lcpHeuristicScore kb ∧ lcpHeuristicScore kb ≤ 4 := by
  simp only [lcpHeuristicScore]
  repeat' split
  all_goals norm_num

theorem fidHeuristicScore_bounds (b : ℕ) :
    0 ≤ fidHeuristicScore b ∧ fidHeuristicScore b ≤ 4 := by
  simp only [fidHeuristicScore]
  repeat' split
  all_goals norm_num

theorem clsHeuristicScore_bounds (n : ℕ) :
    0 ≤ clsHeuristicScore n ∧ clsHeuristicScore n ≤ 4 := by
  simp only [clsHeuristicScore]
  repeat' split
  all_goals norm_num

theorem loadHeuristicScore_bounds (n : ℕ) :
    0 ≤ loadHeuristicScore n ∧ loadHeuristicScore n ≤ 4 := by
  simp only [loadHeuristicScore]
  repeat' split
  all_goals norm_num

theorem mediaHeuristicScore_bounds (li wa : ℕ) :
    0 ≤ mediaHeuristicScore li wa ∧ mediaHeuristicScore li wa ≤ 8 := by
  simp only [mediaHeuristicScore]
  constructor
  · apply le_min
    · repeat' split
      all_goals norm_num
    · norm_num
  · exact min_le_right _ _

/-- Mode-by-mode raw-score and available bounds for the performance pillar:
heuristic mode is at most 24 out of 30; measured mode is at most 22 out of
30 with the load-time metric and at most 16 out of 24 without it. -/
theorem score_performance_pillar_cases (psi : Option PsiMetrics) (obs : PerfObs) :
    0 ≤ (score_performance_pillar psi obs).1
      ∧ (psi = none →
          (score_performance_pillar psi obs).1 ≤ 24
            ∧ (score_performance_pillar psi obs).2 = 30)
      ∧ (∀ p, psi = some p → p.interactive_ms ≠ none →
          (score_performance_pillar psi obs).1 ≤ 22
            ∧ (score_performance_pillar psi obs).2 = 30)
      ∧ (∀ p, psi = some p → p.interactive_ms = none →
          (score_performance_pillar psi obs).1 ≤ 16
            ∧ (score_performance_pillar psi obs).2 = 24) := by
  cases psi with
  | none =>
    obtain ⟨a1, b1⟩ := lcpHeuristicScore_bounds obs.imgSampleKb
    obtain ⟨a2, b2⟩ := fidHeuristicScore_bounds obs.inlineScriptBytes
    obtain ⟨a3, b3⟩ := clsHeuristicScore_bounds obs.imgsNoDim
    obtain ⟨a4, b4⟩ := loadHeuristicScore_bounds obs.extCount
    obtain ⟨a5, b5⟩ := mediaHeuristicScore_bounds obs.largeImgs obs.webpAvif
    simp only [score_performance_pillar]
    refine ⟨by linarith, fun _ => ⟨by linarith, by norm_num⟩, fun p hp => ?_, fun p hp => ?_⟩ <;>
      exact absurd hp (by simp)
  | some p =>
    obtain ⟨a1, b1⟩ := lcpScore_bounds p.lcp
    obtain ⟨a2, b2⟩ := fidScore_bounds (p.tbt_ms.map (fun t => max 0 (min 300 (t / 2))))
    obtain ⟨a3, b3⟩ := clsScore_bounds p.cls
    obtain ⟨a4, b4⟩ := loadTimeScore_bounds p.interactive_ms
    simp only [score_performance_pillar]
    refine ⟨by linarith, fun hn => absurd hn (by simp), fun q hq hi => ?_, fun q hq hi => ?_⟩
    · obtain rfl : p = q := by injection hq
      constructor
      · linarith
      · cases hc : p.interactive_ms with
        | none => exact absurd hc hi
        | some v => simp [loadTimeExcluded, hc]
    · obtain rfl : p = q := by injection hq
      have hload : loadTimeScore p.interactive_ms = 0 := by simp [loadTimeScore, hi]
      constructor
      · linarith [hload]
      · simp [loadTimeExcluded, hi]
        norm_num

/-- The performance pillar raw score is strictly below its available maximum
on every input, and non-negative. -/
theorem score_performance_pillar_strict (psi : Option PsiMetrics) (obs : PerfObs) :
    0 ≤ (score_performance_pillar psi obs).1
      ∧ (score_performance_pillar psi obs).1 < (score_performance_pillar psi obs).2 := by
  obtain ⟨h0, hnone, hsome, hexcl⟩ := score_performance_pillar_cases psi obs
  refine ⟨h0, ?_⟩
  cases psi with
  | none =>
    obtain ⟨hle, ha⟩ := hnone rfl
    rw [ha]; linarith
  | some p =>
    cases hi : p.interactive_ms with
    | none =>
      obtain ⟨hle, ha⟩ := hexcl p rfl hi
      rw [ha]; linarith
    | some v =>
      obtain ⟨hle, ha⟩ := hsome p rfl (by simp [hi])
      rw [ha]; linarith

/-! ## Range facts for the mobile sub-scores -/

theorem viewportScore_bounds (vp : Option String) :
    0 ≤ viewportScore vp ∧ viewportScore vp ≤ 4 := by
  cases vp with
  | none => simp [viewportScore]
  | some c =>
    simp only [viewportScore]
    repeat' split
    all_goals norm_num

theorem responsiveScore_bounds (b : Bool) : 0 ≤ responsiveScore b ∧ responsiveScore b ≤ 6 := by
  cases b <;> simp [responsiveScore]

theorem tapTargetScore_bounds (n : ℕ) : 0 ≤ tapTargetScore n ∧ tapTargetScore n ≤ 3 := by
  simp only [tapTargetScore]
  repeat' split
  all_goals norm_num

theorem tapSpacingScore_bounds (b : Bool) : 0 ≤ tapSpacingScore b ∧ tapSpacingScore b ≤ 3 := by
  cases b <;> simp [tapSpacingScore]

theorem fontSizeScore_bounds (b c : Bool) : 0 ≤ fontSizeScore b c ∧ fontSizeScore b c ≤ 4 := by
  simp only [fontSizeScore]
  repeat' split
  all_goals norm_num

theorem popupScore_bounds (b : Bool) : 0 ≤ popupScore b ∧ popupScore b ≤ 6 := by
  cases b <;> norm_num [popupScore]

theorem score_mobile_pillar_bounds (soup : Soup) (mf c16 : Bool) :
    0 ≤ (score_mobile_pillar soup mf c16).1
      ∧ (score_mobile_pillar soup mf c16).1 ≤ (score_mobile_pillar soup mf c16).2 := by
  obtain ⟨a1, b1⟩ := viewportScore_bounds soup.viewportContent
  obtain ⟨a2, b2⟩ := responsiveScore_bounds mf
  obtain ⟨a3, b3⟩ := tapTargetScore_bounds soup.ctaCount
  obtain ⟨a4, b4⟩ := tapSpacingScore_bounds soup.spacingHint
  obtain ⟨a5, b5⟩ := fontSizeScore_bounds (base16Of soup.bodyStyle) c16
  obtain ⟨a6, b6⟩ := popupScore_bounds soup.popupDetected
  simp only [score_mobile_pillar]
  constructor <;> linarith

/-! ## Claim theorems -/

/-- Claim C1 counterexample: the claimed totals 18 and 21 are wrong.  At a
concrete invocation of the content pillar scorer the available total without
an originality percentage is 17 (not 18), and with one supplied it is 20
(not 21): the sub-score maxima 3+3+5+3+3+(3 or 0) sum to 17 or 20. -/
theorem content_available_not_18_or_21 :
    (score_content_pillar "Blog Post" "some words here" "kw" [] none soupEmpty).2 ≠ 18
      ∧ (score_content_pillar "Blog Post" "some words here" "kw" [] (some 97) soupEmpty).2 ≠ 21 := by
  constructor <;> · simp only [score_content_pillar, originalityAvailable]; norm_num

/-- Claim C1 (amended): for every invocation of the content pillar scorer,
the available total equals the sum of its sub-score maxima
3+3+5+3+3+(3 or 0), i.e. 17 when no originality percentage is supplied and
20 when one is supplied. -/
theorem content_available_sum_of_maxima (ct text kw : String) (lsi_terms : List String)
    (o : Option ℚ) (soup : Soup) :
    (score_content_pillar ct text kw lsi_terms o soup).2
      = 3 + 3 + 5 + 3 + 3 + (if o.isSome then (3 : ℚ) else 0) := by
  cases o <;> simp [score_content_pillar, originalityAvailable]

/-- Claim C4: for every input, each of the five pillar scoring functions
returns a raw score that never exceeds the available maximum it returns
alongside it. -/
theorem pillar_raw_le_available (ct text kw url path : String) (lsi_terms : List String)
    (o : Option ℚ) (soup : Soup) (links : LinkObs) (psi : Option PsiMetrics)
    (obs : PerfObs) (mf c16 : Bool) :
    (score_content_pillar ct text kw lsi_terms o soup).1
        ≤ (score_content_pillar ct text kw lsi_terms o soup).2
      ∧ (score_html_pillar soup ct).1 ≤ (score_html_pillar soup ct).2
      ∧ (score_url_links_pillar url path soup kw links).1
        ≤ (score_url_links_pillar url path soup kw links).2
      ∧ (score_performance_pillar psi obs).1 ≤ (score_performance_pillar psi obs).2
      ∧ (score_mobile_pillar soup mf c16).1 ≤ (score_mobile_pillar soup mf c16).2 :=
  ⟨(score_content_pillar_bounds ct text kw lsi_terms o soup).2,
    (score_html_pillar_bounds soup ct).2,
    (score_url_links_pillar_bounds url path soup kw links).2,
    (score_performance_pillar_strict psi obs).2.le,
    (score_mobile_pillar_bounds soup mf c16).2⟩

/-- Claim C5: for every content type (and all other inputs), the content
pillar's available maximum without an originality percentage is exactly 3
less than with one, and in the no-value case the originality sub-score is 0,
so the raw score is exactly the sum of the five other sub-scores. -/
theorem originality_exclusion (ct text kw : String) (lsi_terms : List String)
    (soup : Soup) (p : ℚ) :
    (score_content_pillar ct text kw lsi_terms none soup).2
        = (score_content_pillar ct text kw lsi_terms (some p) soup).2 - 3
      ∧ originalityScore none = 0
      ∧ (score_content_pillar ct text kw lsi_terms none soup).1
        = contentBaseScore ct text kw.trim lsi_terms soup := by
  refine ⟨?_, rfl, ?_⟩
  · simp only [score_content_pillar, originalityAvailable]
    norm_num
  · simp only [score_content_pillar, originalityScore]
    norm_num

/-- Claim C2: a URL whose string contains "/blog/" classifies as Blog Post
regardless of the page content and its structured data (the URL rule of
step 1 fires before the JSON-LD rules of step 2). -/
theorem blog_url_wins (url path : String) (soup : Soup) (text : String)
    (h : containsL "/blog/".toList url.toList = true) :
    detect_content_type url path soup text = "Blog Post" := by
  have hl : containsL "/blog/".toList (lowerL url) = true := by
    rw [containsL_iff] at h ⊢
    have hmap := List.IsInfix.map Char.toLower h
    have hfix : "/blog/".toList.map Char.toLower = "/blog/".toList := by decide
    rw [hfix] at hmap
    exact hmap
  simp only [detect_content_type]
  rw [if_pos (Or.inl hl)]

/-- Claim C2 witness: the concrete URL https://shop.example.com/blog/phones
contains "/blog/" and classifies as Blog Post even though the page's JSON-LD
declares @type Product. -/
theorem blog_url_wins_witness :
    containsL "/blog/".toList "https://shop.example.com/blog/phones".toList = true
      ∧ detect_content_type "https://shop.example.com/blog/phones" "/blog/phones"
          soupProductLd "Buy the best phones in our shop." = "Blog Post" :=
  ⟨by decide, blog_url_wins _ _ _ _ (by decide)⟩

/-- Claim C3: for any five (raw, available) pillar pairs with 0 ≤ raw ≤
available, as produced by an audit run, each normalized contribution
(raw/available) times the fixed weight stays at or below that weight
(20, 10, 10, 30, 30), a contribution is 0 whenever its available is ≤ 0,
the weighted total is at most 100, and the total possible is exactly 100
regardless of any exclusions. -/
theorem aggregation_invariant (s1 a1 s2 a2 s3 a3 s4 a4 s5 a5 : ℚ)
    (h1 : 0 ≤ s1 ∧ s1 ≤ a1) (h2 : 0 ≤ s2 ∧ s2 ≤ a2) (h3 : 0 ≤ s3 ∧ s3 ≤ a3)
    (h4 : 0 ≤ s4 ∧ s4 ≤ a4) (h5 : 0 ≤ s5 ∧ s5 ≤ a5) :
    normContribution s1 a1 20 ≤ 20
      ∧ normContribution s2 a2 10 ≤ 10
      ∧ normContribution s3 a3 10 ≤ 10
      ∧ normContribution s4 a4 30 ≤ 30
      ∧ normContribution s5 a5 30 ≤ 30
      ∧ (a1 ≤ 0 → normContribution s1 a1 20 = 0)
      ∧ (a2 ≤ 0 → normContribution s2 a2 10 = 0)
      ∧ (a3 ≤ 0 → normContribution s3 a3 10 = 0)
      ∧ (a4 ≤ 0 → normContribution s4 a4 30 = 0)
      ∧ (a5 ≤ 0 → normContribution s5 a5 30 = 0)
      ∧ total_weighted [(s1, a1), (s2, a2), (s3, a3), (s4, a4), (s5, a5)] ≤ 100
      ∧ total_possible [(s1, a1), (s2, a2), (s3, a3), (s4, a4), (s5, a5)] = 100 := by
  have c1 := normContribution_le h1.1 h1.2 (by norm_num : (0:ℚ) ≤ 20)
  have c2 := normContribution_le h2.1 h2.2 (by norm_num : (0:ℚ) ≤ 10)
  have c3 := normContribution_le h3.1 h3.2 (by norm_num : (0:ℚ) ≤ 10)
  have c4 := normContribution_le h4.1 h4.2 (by norm_num : (0:ℚ) ≤ 30)
  have c5 := normContribution_le h5.1 h5.2 (by norm_num : (0:ℚ) ≤ 30)
  refine ⟨c1, c2, c3, c4, c5, ?_, ?_, ?_, ?_, ?_, ?_, total_possible_eq _ _ _ _ _⟩
  · intro ha; simp [normContribution, ha]
  · intro ha; simp [normContribution, ha]
  · intro ha; simp [normContribution, ha]
  · intro ha; simp [normContribution, ha]
  · intro ha; simp [normContribution, ha]
  · rw [total_weighted_eq]
    dsimp only
    linarith

/-- Claim C3 witness: the aggregation invariant at the concrete pairs
(0,0), (1,2), (5,10), (20,30), (26,30), including the zeroed contribution of
the non-positive available pair. -/
theorem aggregation_invariant_witness :
    normContribution 0 0 20 ≤ 20
      ∧ normContribution 1 2 10 ≤ 10
      ∧ normContribution 5 10 10 ≤ 10
      ∧ normContribution 20 30 30 ≤ 30
      ∧ normContribution 26 30 30 ≤ 30
      ∧ ((0 : ℚ) ≤ 0 → normContribution 0 0 20 = 0)
      ∧ ((2 : ℚ) ≤ 0 → normContribution 1 2 10 = 0)
      ∧ ((10 : ℚ) ≤ 0 → normContribution 5 10 10 = 0)
      ∧ ((30 : ℚ) ≤ 0 → normContribution 20 30 30 = 0)
      ∧ ((30 : ℚ) ≤ 0 → normContribution 26 30 30 = 0)
      ∧ total_weighted [((0 : ℚ), (0 : ℚ)), (1, 2), (5, 10), (20, 30), (26, 30)] ≤ 100
      ∧ total_possible [((0 : ℚ), (0 : ℚ)), (1, 2), (5, 10), (20, 30), (26, 30)] = 100 :=
  aggregation_invariant 0 0 1 2 5 10 20 30 26 30
    (by decide) (by decide) (by decide) (by decide) (by decide)

/-- Claim C6: the keyword-in-URL sub-score awards its full 1 point exactly
when the number of distinct token overlaps between the URL path slug and the
primary keyword is 1 or 2, and 0 in every other case (zero overlaps and three
or more overlaps both score 0; an empty keyword forces zero overlaps). -/
theorem keyword_in_url_band (path kw : String) :
    (keywordsInUrlScore path kw = 1
        ↔ url_slug_keywords path kw = 1 ∨ url_slug_keywords path kw = 2)
      ∧ (keywordsInUrlScore path kw = 0 ∨ keywordsInUrlScore path kw = 1) := by
  by_cases hk : kw = ""
  · subst hk
    have ht : tokens "" = [] := rfl
    have h0 : url_slug_keywords path "" = 0 := by
      simp [url_slug_keywords, ht]
    have hs : keywordsInUrlScore path "" = 0 := by
      simp [keywordsInUrlScore]
    rw [hs, h0]
    norm_num
  · have hs : keywordsInUrlScore path kw
        = if 1 ≤ url_slug_keywords path kw ∧ url_slug_keywords path kw ≤ 2
          then 1 else 0 := by
      simp only [keywordsInUrlScore, if_pos hk]
    rw [hs]
    by_cases hc : 1 ≤ url_slug_keywords path kw ∧ url_slug_keywords path kw ≤ 2
    · rw [if_pos hc]
      exact ⟨⟨fun _ => by omega, fun _ => rfl⟩, Or.inr rfl⟩
    · rw [if_neg hc]
      refine ⟨⟨fun h => absurd h (by norm_num), fun h => by omega⟩, Or.inl rfl⟩

/-- Claim C7: when the primary fetch of the target URL does not come back as
HTTP 200 (network error, or a non-200 status such as 500) and no fallback
scraper key is configured (SCRAPER_API_KEY ships empty), run_audit returns
none: no content type, no pillar results, no totals. -/
theorem fetch_failure_aborts (inp : AuditInput)
    (h : ∀ body, inp.primary ≠ HttpResult.response 200 body) :
    run_audit inp = none := by
  have hf : fetch_html inp.primary inp.fallback = none := by
    cases hp : inp.primary with
    | response s body =>
      simp only [fetch_html]
      by_cases hs : s = 200
      · subst hs
        exact absurd hp (h body)
      · rw [if_neg hs]
        simp [fallbackFetch, SCRAPER_API_KEY]
    | netError =>
      simp [fetch_html, fallbackFetch, SCRAPER_API_KEY]
  simp [run_audit, hf]

/-- Claim C7 witness: a concrete audit request whose primary fetch came back
HTTP 500, with no fallback key configured, produces no audit result. -/
theorem fetch_failure_aborts_witness : run_audit inpFail = none :=
  fetch_failure_aborts inpFail (by intro body hb; simp [inpFail] at hb)

/-- Claim C8: a page with zero image elements has alt-text coverage 100% by
definition, so the HTML pillar awards the full 2 alt-text points: on any
document with an empty image list the pillar's raw score contains 2 for the
alt component. -/
theorem zero_images_full_alt_credit (soup : Soup) (ct : String) :
    altCoverage [] = 100
      ∧ altScore [] = 2
      ∧ (score_html_pillar { soup with imgAlts := [] } ct).1
        = titleScore soup.title + metaDescriptionScore soup.metaDescription
          + h1Score soup.h1s.length + h2plusScore ct (soup.h2h3s.length + soup.h4Count)
          + 2 + schemaScore ct soup.jsonLdTypes := by
  have h2 : altScore [] = 2 := by norm_num [altScore, altCoverage]
  exact ⟨rfl, h2, by simp [score_html_pillar, h2]⟩

/-- Case split for an if-then-else of strings inside a membership goal. -/
theorem iteStrMem {c : Prop} [Decidable c] {a b : String} {l : List String}
    (ha : a ∈ l) (hb : b ∈ l) : (if c then a else b) ∈ l := by
  by_cases h : c
  · rwa [if_pos h]
  · rwa [if_neg h]

/-- Case split for an if-then-else of strings inside a disequality goal. -/
theorem iteStrNe {c : Prop} [Decidable c] {a b x : String}
    (ha : a ≠ x) (hb : b ≠ x) : (if c then a else b) ≠ x := by
  by_cases h : c
  · rwa [if_pos h]
  · rwa [if_neg h]

set_option maxHeartbeats 1600000 in
/-- Claim C9: the content-type classifier only ever returns one of the seven
labels Blog Post, Product Page, Service Page, FAQ Page, Landing Page,
Pillar Page, Home Page; it never returns News Article, even though
News Article has an entry in every per-content-type threshold table of the
scorers (those rows are unreachable via classification). -/
theorem classifier_never_news_article (url path : String) (soup : Soup) (text : String) :
    detect_content_type url path soup text
        ∈ ["Blog Post", "Product Page", "Service Page", "FAQ Page", "Landing Page",
            "Pillar Page", "Home Page"]
      ∧ detect_content_type url path soup text ≠ "News Article"
      ∧ ideal_wc "News Article" = some (600, 1000)
      ∧ density_ranges "News Article" = some (8/10, 9/5)
      ∧ lsi_ratio_table "News Article" = some 400
      ∧ readability_thresholds "News Article" = some 60
      ∧ need_map "News Article" = some 2
      ∧ target_schema "News Article" = ["NewsArticle", "Article"] := by
  refine ⟨?_, ?_, rfl, rfl, rfl, rfl, rfl, rfl⟩
  · simp only [detect_content_type]
    repeat' apply iteStrMem
    all_goals decide
  · simp only [detect_content_type]
    repeat' apply iteStrNe
    all_goals decide

/-- Claim C10: the performance pillar's raw score is strictly below its
available maximum on every input: at most 24 of 30 in heuristic mode (the
sub-score maxima are 4+4+4+4+8), at most 22 of 30 in measured mode
(6+5+5+6), and at most 16 of 24 when the load-time metric is excluded; hence
its normalized contribution is strictly below its fixed weight 30 and the
overall weighted total of any audit is strictly below 100. -/
theorem performance_strictly_below (psi : Option PsiMetrics) (obs : PerfObs)
    (ct text kw url path : String) (lsi_terms : List String) (o : Option ℚ)
    (soup : Soup) (links : LinkObs) (mf c16 : Bool) :
    (score_performance_pillar psi obs).1 < (score_performance_pillar psi obs).2
      ∧ (psi = none →
          (score_performance_pillar psi obs).1 ≤ 24
            ∧ (score_performance_pillar psi obs).2 = 30)
      ∧ (∀ p, psi = some p → p.interactive_ms ≠ none →
          (score_performance_pillar psi obs).1 ≤ 22
            ∧ (score_performance_pillar psi obs).2 = 30)
      ∧ (∀ p, psi = some p → p.interactive_ms = none →
          (score_performance_pillar psi obs).1 ≤ 16
            ∧ (score_performance_pillar psi obs).2 = 24)
      ∧ normContribution (score_performance_pillar psi obs).1
          (score_performance_pillar psi obs).2 30 < 30
      ∧ total_weighted
          [((score_content_pillar ct text kw lsi_terms o soup).1,
              (score_content_pillar ct text kw lsi_terms o soup).2),
            ((score_html_pillar soup ct).1, (score_html_pillar soup ct).2),
            ((score_url_links_pillar url path soup kw links).1,
              (score_url_links_pillar url path soup kw links).2),
            ((score_performance_pillar psi obs).1, (score_performance_pillar psi obs).2),
            ((score_mobile_pillar soup mf c16).1, (score_mobile_pillar soup mf c16).2)]
        < 100 := by
  obtain ⟨hp0, hlt⟩ := score_performance_pillar_strict psi obs
  obtain ⟨_, hnone, hsome, hexcl⟩ := score_performance_pillar_cases psi obs
  obtain ⟨hc0, hcle⟩ := score_content_pillar_bounds ct text kw lsi_terms o soup
  obtain ⟨hh0, hhle⟩ := score_html_pillar_bounds soup ct
  obtain ⟨hu0, hule⟩ := score_url_links_pillar_bounds url path soup kw links
  obtain ⟨hm0, hmle⟩ := score_mobile_pillar_bounds soup mf c16
  have w1 := normContribution_le hc0 hcle (by norm_num : (0:ℚ) ≤ 20)
  have w2 := normContribution_le hh0 hhle (by norm_num : (0:ℚ) ≤ 10)
  have w3 := normContribution_le hu0 hule (by norm_num : (0:ℚ) ≤ 10)
  have w4 := normContribution_lt hlt (by norm_num : (0:ℚ) < 30)
  have w5 := normContribution_le hm0 hmle (by norm_num : (0:ℚ) ≤ 30)
  refine ⟨hlt, hnone, hsome, hexcl, w4, ?_⟩
  rw [total_weighted_eq]
  dsimp only
  linarith

/-- Claim C10 witness: in heuristic mode (no PSI metrics) on a concrete
input, the performance raw score stays strictly below and at most 24 of the
available 30, its contribution is below 30, and the audit total is below
100. -/
theorem performance_strictly_below_witness :
    (score_performance_pillar none perfObsZero).1 < (score_performance_pillar none perfObsZero).2
      ∧ (score_performance_pillar none perfObsZero).1 ≤ 24
      ∧ (score_performance_pillar none perfObsZero).2 = 30
      ∧ normContribution (score_performance_pillar none perfObsZero).1
          (score_performance_pillar none perfObsZero).2 30 < 30
      ∧ total_weighted
          [((score_content_pillar "Blog Post" "" "" [] none soupEmpty).1,
              (score_content_pillar "Blog Post" "" "" [] none soupEmpty).2),
            ((score_html_pillar soupEmpty "Blog Post").1,
              (score_html_pillar soupEmpty "Blog Post").2),
            ((score_url_links_pillar "https://example.com/a" "/a" soupEmpty "" linksZero).1,
              (score_url_links_pillar "https://example.com/a" "/a" soupEmpty "" linksZero).2),
            ((score_performance_pillar none perfObsZero).1,
              (score_performance_pillar none perfObsZero).2),
            ((score_mobile_pillar soupEmpty false false).1,
              (score_mobile_pillar soupEmpty false false).2)]
        < 100 := by
  have h := performance_strictly_below none perfObsZero "Blog Post" "" ""
    "https://example.com/a" "/a" [] none soupEmpty linksZero false false
  exact ⟨h.1, (h.2.1 rfl).1, (h.2.1 rfl).2, h.2.2.2.2.1, h.2.2.2.2.2⟩
